/-
Verification development for the iOS remote-debug adapter layer:
a shallow embedding, in Lean 4, of the protocol-version resolver, the
iOS 13 dialect's message-rewrite hook, and the adapter-collection
discovery/connection bookkeeping (src/adapters/iosAdapter.ts and the
iOS 13 protocol class), together with theorems about them.

Modelling conventions:
 - JavaScript numbers produced by parseInt are modelled as `Option Int`,
   `none` standing for NaN; every JS comparison with NaN is false, which
   the `numLe/numLt/numGt/numGe/numEq` helpers reproduce.
 - JS exceptions that are caught inside the function under study are
   modelled by the corresponding `catch` result (the thrown path is an
   explicit branch of the Lean definition).
 - JS `Map` objects are modelled as association lists consulted with
   `List.lookup`; `Map.set` on a key that is absent conses the new
   binding at the front (lookup order is irrelevant while keys are
   distinct, which is proved below).
-/
import Mathlib

namespace RemoteDebugAdapter

/-! ## Runtime.getProperties payloads (protocols/ios/ios13.ts) -/

/-- One property descriptor inside a Runtime.getProperties result.
`isOwn` and `nativeGetter` are the two flags the iOS 13 hook inspects
(absent JS fields are falsy, i.e. `false` here); `tag` stands for all
the remaining fields of the descriptor, which the hook never touches,
so that distinct descriptors stay distinguishable. -/
structure PropertyDescriptor where
  isOwn : Bool
  nativeGetter : Bool
  tag : Nat
deriving DecidableEq

/-- Shape of `msg.result` as seen by `IOS13Protocol.onRuntimeGetProperties`:
either an object carrying the descriptor list under a truthy `properties`
field, or a bare array of descriptors (no `properties` field, so the
destructured `properties` is undefined/falsy and the code falls back to
`msg.result` itself), or some other object on which neither shape applies
(its `length` is undefined, so the rewrite loop runs zero times). -/
inductive ResultShape where
  | objWithProps (properties : List PropertyDescriptor)
  | bareArray (properties : List PropertyDescriptor)
  | nonList
deriving DecidableEq

/-- A Runtime.getProperties response frame: the envelope id plus the
result payload; `none` models a null/undefined `msg.result`. -/
structure RuntimeMsg where
  id : Nat
  result : Option ResultShape
deriving DecidableEq

/-- What the hook resolves with: the rewritten message (its result
replaced by `{ result: <descriptor list> }`), or the neutral empty
envelope `{}` produced by the catch branch. -/
inductive HookOutput where
  | msgOut (id : Nat) (result : List PropertyDescriptor)
  | emptyEnvelope
deriving DecidableEq

/-- The rewrite loop of `onRuntimeGetProperties`: keep exactly the
descriptors whose `isOwn` or `nativeGetter` flag is set, forcing
`isOwn := true` on each kept descriptor, preserving order. -/
def filterProps : List PropertyDescriptor → List PropertyDescriptor
  | [] => []
  | p :: rest =>
    if p.isOwn || p.nativeGetter then { p with isOwn := true } :: filterProps rest
    else filterProps rest

/-- `IOS13Protocol.onRuntimeGetProperties` (protocols/ios/ios13.ts).
When `msg.result` is null/undefined, the destructuring
`let { properties } = msg.result` throws; the catch logs and the
function resolves with the empty envelope `{}`.  Otherwise the
descriptor list is taken from `result.properties` when that field is
truthy, else `msg.result` itself is used; a non-array fallback has an
undefined `length`, so the loop body never runs and the result becomes
`{ result: [] }`. -/
def onRuntimeGetProperties (msg : RuntimeMsg) : HookOutput :=
  match msg.result with
  | none => HookOutput.emptyEnvelope
  | some (ResultShape.objWithProps props) => HookOutput.msgOut msg.id (filterProps props)
  | some (ResultShape.bareArray props) => HookOutput.msgOut msg.id (filterProps props)
  | some ResultShape.nonList => HookOutput.msgOut msg.id []

/-! ## Targets and dialect constructors -/

/-- A debuggable target.  `version` and `deviceId` are the fields of
`target.data.metadata` that the resolver consults (`deviceId` equals
"SIMULATOR" exactly for simulator targets); `targetBased` is the
"requires explicit attach handshake" flag mutated by the protocol
constructors; `id` is a stable identity used as map key. -/
structure Target where
  id : Nat
  version : String
  deviceId : String
  targetBased : Bool
deriving DecidableEq

/-- Modelled from the spec: the `IOS12Protocol` constructor (its source
file protocols/ios/ios12.ts is not included under src/) sets the
Target's explicit-attach-handshake flag — older generations require the
handshake (`targetBased = true`). -/
def ios12Construct (t : Target) : Target :=
  { t with targetBased := true }

/-- The `IOS13Protocol` constructor (protocols/ios/ios13.ts): it first
runs the superclass constructor, then assigns
`target.targetBased = false`. -/
def ios13Construct (t : Target) : Target :=
  { ios12Construct t with targetBased := false }

/-! ## JavaScript string/number primitives used by the adapter -/

/-- JS `String.prototype.split(sep)` with a one-character separator,
on the character list of the string: `"" .split('.')` is `[""]`,
`".".split('.')` is `["",""]`, `"a.b".split('.')` is `["a","b"]`. -/
def splitOnChar (sep : Char) : List Char → List (List Char)
  | [] => [[]]
  | c :: rest =>
    let r := splitOnChar sep rest
    if c = sep then [] :: r
    else
      match r with
      | [] => [[c]]
      | h :: t => (c :: h) :: t

/-- String-level wrapper for `splitOnChar`. -/
def splitString (sep : Char) (s : String) : List String :=
  (splitOnChar sep s.data).map fun cs => String.mk cs

/-- Value of a maximal leading run of decimal digits; `none` when the
run is empty (JS parseInt then yields NaN). -/
def parseDigits (cs : List Char) : Option Nat :=
  let ds := cs.takeWhile Char.isDigit
  if ds.isEmpty then none
  else some (ds.foldl (fun acc c => acc * 10 + (c.toNat - 48)) 0)

/-- JS `parseInt(s, 10)`: skip leading spaces, allow one sign, read the
maximal digit run; `none` models NaN (no digits at all).  `parseInt`
of an absent (undefined) argument is modelled by applying this to `""`,
which also yields `none`/NaN. -/
def parseIntDec (s : String) : Option Int :=
  match s.data.dropWhile (fun c => c = ' ') with
  | '-' :: rest => (parseDigits rest).map fun n => -(n : Int)
  | '+' :: rest => (parseDigits rest).map fun n => (n : Int)
  | cs => (parseDigits cs).map fun n => (n : Int)

/-- JS `a <= b` where `a` may be NaN (`none`): false on NaN. -/
def numLe : Option Int → Int → Bool
  | some x, b => decide (x ≤ b)
  | none, _ => false

/-- JS `a > b` where `a` may be NaN: false on NaN. -/
def numGt : Option Int → Int → Bool
  | some x, b => decide (b < x)
  | none, _ => false

/-- JS `a >= b` where `a` may be NaN: false on NaN. -/
def numGe : Option Int → Int → Bool
  | some x, b => decide (b ≤ x)
  | none, _ => false

/-- JS `a === b` for numbers where `a` may be NaN: false on NaN. -/
def numEq : Option Int → Int → Bool
  | some x, b => decide (x = b)
  | none, _ => false

/-! ## Protocol-version resolution (IOSAdapter.getProtocolFor) -/

/-- The dialect tag, i.e. which `IOSxxProtocol` class
`IOSAdapter.getProtocolFor` constructs. -/
inductive DialectTag where
  | v8
  | v9
  | v12
  | v13
deriving DecidableEq

/-- The cascade of guards inside `getProtocolFor`, after `major` and
`minor` have been parsed (either may be NaN) — the devices check reads
`target.data.metadata.deviceId !== 'SIMULATOR'`.  JS `&&` binds tighter
than `||`. -/
def resolveParts (major minor : Option Int) (deviceId : String) : DialectTag :=
  if numLe major 8 then DialectTag.v8
  else if numGt major 13 || (numGe major 13 && numGe minor 4) then DialectTag.v13
  else if (deviceId != "SIMULATOR") && numEq major 12 && numEq minor 2 then DialectTag.v12
  else DialectTag.v9

/-- `IOSAdapter.getProtocolFor(version, target)`: split the version on
'.', parse `parts[0]` and `parts[1]` with parseInt (an absent `parts[1]`
gives NaN), and run the guard cascade; when the (always-true) length
check fails, fall through to the default `IOS9Protocol`. -/
def getProtocolFor (version : String) (target : Target) : DialectTag :=
  if (splitString '.' version).length > 0 then
    resolveParts (parseIntDec ((splitString '.' version).getD 0 ""))
      (parseIntDec ((splitString '.' version).getD 1 ""))
      target.deviceId
  else DialectTag.v9

/-! ## Basic lemmas -/

/-- The rewrite loop computes filter-then-normalize: it keeps exactly
the descriptors with `isOwn` or `nativeGetter` set and forces
`isOwn := true` on each. -/
theorem filterProps_eq_filter_map (props : List PropertyDescriptor) :
    filterProps props =
      (props.filter fun p => p.isOwn || p.nativeGetter).map fun p => { p with isOwn := true } := by
  induction props with
  | nil => rfl
  | cons p rest ih =>
    by_cases h : (p.isOwn || p.nativeGetter) = true
    · simp [filterProps, h, List.filter_cons, ih]
    · simp [filterProps, h, List.filter_cons, ih]

/-- Guard cascade sends a major above 13, or major 13 with minor at
least 4, to the v13 dialect. -/
theorem resolveParts_v13 (x : Int) (minor : Option Int) (dev : String)
    (h : 13 < x ∨ (x = 13 ∧ ∃ y, minor = some y ∧ 4 ≤ y)) :
    resolveParts (some x) minor dev = DialectTag.v13 := by
  rcases h with h | ⟨hx, y, hy, h4⟩
  · have h8 : ¬ (x ≤ 8) := by omega
    simp [resolveParts, numLe, numGt, h8, h]
  · subst hx hy
    have h8 : ¬ ((13 : Int) ≤ 8) := by omega
    simp [resolveParts, numLe, numGt, numGe, h8, h4]

/-- Guard cascade collapses a NaN major to the default v9 dialect. -/
theorem resolveParts_nan_major (minor : Option Int) (dev : String) :
    resolveParts none minor dev = DialectTag.v9 := by
  simp [resolveParts, numLe, numGt, numGe, numEq]

/-! ## Claim theorems: hook and resolver -/

/-- C1: the newest dialect's `onRuntimeGetProperties` hook, on both
accepted result shapes (a `properties` field or a bare result array),
keeps exactly the entries whose `isOwn` or `nativeGetter` flag is set,
forces `isOwn := true` on every kept entry, and replaces the result
with `{ result: <filtered array> }`; on the concrete input
`{ properties: [{isOwn:true}, {nativeGetter:true}, {other:true}] }`
it keeps the first two entries with `isOwn` true and drops the third. -/
theorem c1_runtime_get_properties_filters :
    (∀ (id : Nat) (props : List PropertyDescriptor),
        onRuntimeGetProperties ⟨id, some (ResultShape.objWithProps props)⟩ =
          HookOutput.msgOut id
            ((props.filter fun p => p.isOwn || p.nativeGetter).map fun p => { p with isOwn := true })
      ∧ onRuntimeGetProperties ⟨id, some (ResultShape.bareArray props)⟩ =
          HookOutput.msgOut id
            ((props.filter fun p => p.isOwn || p.nativeGetter).map fun p => { p with isOwn := true })
      ∧ ∀ q ∈ (props.filter fun p => p.isOwn || p.nativeGetter).map
            (fun p => { p with isOwn := true }), q.isOwn = true)
  ∧ onRuntimeGetProperties ⟨0, some (ResultShape.objWithProps
        [⟨true, false, 1⟩, ⟨false, true, 2⟩, ⟨false, false, 3⟩])⟩ =
      HookOutput.msgOut 0 [⟨true, false, 1⟩, ⟨true, true, 2⟩] := by
  refine ⟨fun id props => ⟨?_, ?_, ?_⟩, by decide⟩
  · simp [onRuntimeGetProperties, filterProps_eq_filter_map]
  · simp [onRuntimeGetProperties, filterProps_eq_filter_map]
  · intro q hq
    simp only [List.mem_map] at hq
    obtain ⟨p, _, rfl⟩ := hq
    rfl

/-- Witness for C1 at a concrete descriptor list. -/
theorem c1_runtime_get_properties_filters_witness :
    onRuntimeGetProperties ⟨7, some (ResultShape.bareArray
        [⟨false, true, 5⟩, ⟨false, false, 6⟩])⟩ =
      HookOutput.msgOut 7 [⟨true, true, 5⟩] :=
  ((c1_runtime_get_properties_filters.1 7
      [⟨false, true, 5⟩, ⟨false, false, 6⟩]).2.1).trans (by decide)

/-- C2: every version string whose MAJOR parses above 13, or whose
MAJOR parses to 13 with MINOR parsing to at least 4, resolves to the
v13 dialect, for every target (simulator or not). -/
theorem c2_resolver_v13 (version : String) (t : Target) (major : Int)
    (hmaj : parseIntDec ((splitString '.' version).getD 0 "") = some major)
    (h : 13 < major ∨ (major = 13 ∧ ∃ minor : Int,
        parseIntDec ((splitString '.' version).getD 1 "") = some minor ∧ 4 ≤ minor)) :
    getProtocolFor version t = DialectTag.v13 := by
  unfold getProtocolFor
  have hlen : (splitString '.' version).length > 0 := by
    cases hsp : splitString '.' version with
    | nil =>
      rw [hsp] at hmaj
      have hn : parseIntDec (List.getD ([] : List String) 0 "") = none := rfl
      rw [hn] at hmaj
      exact Option.noConfusion hmaj
    | cons a l => simp
  rw [if_pos hlen, hmaj]
  exact resolveParts_v13 major _ t.deviceId h

/-- Witness for C2 at version "13.4". -/
theorem c2_resolver_v13_witness :
    getProtocolFor "13.4" ⟨0, "13.4", "SIMULATOR", false⟩ = DialectTag.v13 :=
  c2_resolver_v13 "13.4" ⟨0, "13.4", "SIMULATOR", false⟩ 13 (by decide)
    (Or.inr ⟨rfl, 4, by decide, by decide⟩)

/-- C3: "12.2" on a physical (non-simulator) target resolves to v12,
while "12.2" on a simulator target resolves to the v9 default. -/
theorem c3_resolver_12_2 (t tsim : Target)
    (h : t.deviceId ≠ "SIMULATOR") (hsim : tsim.deviceId = "SIMULATOR") :
    getProtocolFor "12.2" t = DialectTag.v12 ∧ getProtocolFor "12.2" tsim = DialectTag.v9 := by
  constructor
  · rw [show getProtocolFor "12.2" t = resolveParts (some 12) (some 2) t.deviceId from rfl]
    simp [resolveParts, numLe, numGt, numGe, numEq, h]
  · rw [show getProtocolFor "12.2" tsim = resolveParts (some 12) (some 2) tsim.deviceId from rfl,
      hsim]
    decide

/-- Witness for C3 at a concrete physical target and simulator target. -/
theorem c3_resolver_12_2_witness :
    getProtocolFor "12.2" ⟨0, "12.2", "device1", false⟩ = DialectTag.v12
  ∧ getProtocolFor "12.2" ⟨1, "12.2", "SIMULATOR", false⟩ = DialectTag.v9 :=
  c3_resolver_12_2 ⟨0, "12.2", "device1", false⟩ ⟨1, "12.2", "SIMULATOR", false⟩
    (by decide) rfl

/-- C4: every version string whose MAJOR component fails to parse
resolves to the v9 default, and in particular "abc", "" and "13"
(no MINOR) all resolve to v9; the resolver is a total function, so it
never raises. -/
theorem c4_resolver_default_v9 :
    (∀ (version : String) (t : Target),
        parseIntDec ((splitString '.' version).getD 0 "") = none →
        getProtocolFor version t = DialectTag.v9)
  ∧ ∀ t : Target, getProtocolFor "abc" t = DialectTag.v9
      ∧ getProtocolFor "" t = DialectTag.v9
      ∧ getProtocolFor "13" t = DialectTag.v9 := by
  constructor
  · intro version t hmaj
    unfold getProtocolFor
    split
    · rw [hmaj]
      exact resolveParts_nan_major _ t.deviceId
    · rfl
  · intro t
    refine ⟨?_, ?_, ?_⟩
    · rw [show getProtocolFor "abc" t = resolveParts none none t.deviceId from rfl]
      exact resolveParts_nan_major none t.deviceId
    · rw [show getProtocolFor "" t = resolveParts none none t.deviceId from rfl]
      exact resolveParts_nan_major none t.deviceId
    · rw [show getProtocolFor "13" t = resolveParts (some 13) none t.deviceId from rfl]
      simp [resolveParts, numLe, numGt, numGe, numEq]

/-- Witness for C4 at version "abc" on a concrete target. -/
theorem c4_resolver_default_v9_witness :
    getProtocolFor "abc" ⟨0, "abc", "device1", false⟩ = DialectTag.v9 :=
  c4_resolver_default_v9.1 "abc" ⟨0, "abc", "device1", false⟩ (by decide)

/-- C5: when the result payload is absent (the destructuring in the try
block throws), the hook resolves with the neutral empty envelope; and on
every input frame the hook resolves with some envelope — either the
empty one or a rewritten message — so a failure never propagates. -/
theorem c5_hook_catches_failures :
    (∀ id : Nat, onRuntimeGetProperties ⟨id, none⟩ = HookOutput.emptyEnvelope)
  ∧ ∀ msg : RuntimeMsg, onRuntimeGetProperties msg = HookOutput.emptyEnvelope ∨
      ∃ l, onRuntimeGetProperties msg = HookOutput.msgOut msg.id l := by
  constructor
  · intro id; rfl
  · intro msg
    rcases msg with ⟨id, res⟩
    cases res with
    | none => exact Or.inl rfl
    | some s => cases s <;> exact Or.inr ⟨_, rfl⟩

/-- C6: constructing the iOS 13 protocol adapter for a target sets that
target's explicit-attach-handshake flag `targetBased` to `false`,
whatever its previous value (the superclass constructor runs first, then
the assignment). -/
theorem c6_ios13_clears_target_based (t : Target) :
    (ios13Construct t).targetBased = false := rfl

/-! ## Simulator version lookup (IOSAdapter.getSimulatorVersion) -/

/-- One runtime record from `xcrun simctl list --json`. -/
structure SimRuntime where
  identifier : String
  version : String
deriving DecidableEq

/-- One simulator device record (only the udid is consulted). -/
structure SimDevice where
  udid : String
deriving DecidableEq

/-- The parsed output of `xcrun simctl list --json`: runtime-type keys
mapped to device arrays, plus the runtimes array. -/
structure SimctlData where
  devices : List (String × List SimDevice)
  runtimes : List SimRuntime
deriving DecidableEq

/-- JS `haystack.includes(needle)` on character lists. -/
def containsSub (pat : List Char) : List Char → Bool
  | [] => pat.isEmpty
  | c :: rest => List.isPrefixOf pat (c :: rest) || containsSub pat rest

/-- The scanning loops inside `getSimulatorVersion`'s try block: walk the
device groups whose type key contains "SimRuntime.iOS"; on the group
holding `udid`, look the runtime up by identifier and take its version
(`Except.error` models the TypeError thrown — and caught — when no
runtime matches, since `runtime.version` then dereferences undefined;
runtime versions are taken as non-empty, so a found version stops the
outer loop). -/
def scanSimDevices (runtimes : List SimRuntime) (udid : String) :
    List (String × List SimDevice) → Except Unit (Option String)
  | [] => Except.ok none
  | (type, vals) :: rest =>
    if containsSub "SimRuntime.iOS".data type.data then
      match vals.find? (fun v => v.udid == udid) with
      | some _ =>
        match runtimes.find? (fun rt => rt.identifier == type) with
        | none => Except.error ()
        | some rt => Except.ok (some rt.version)
      | none => scanSimDevices runtimes udid rest
    else scanSimDevices runtimes udid rest

/-- `IOSAdapter.getSimulatorVersion(udid)`.  The cache maps a udid to
the version resolved for it (possibly undefined, hence `Option String`);
on a cache hit the cached value is returned.  `execResult` is the
outcome of the `xcrun simctl list --json` shell-out: `none` when the
command failed (the catch branch assigns the fallback '9.3.0'), and the
parsed data on success.  A TypeError thrown while scanning is also
caught by the same catch.  The resolved value is cached and returned. -/
def getSimulatorVersion (cache : List (String × Option String)) (udid : String)
    (execResult : Option SimctlData) : Option String × List (String × Option String) :=
  match List.lookup udid cache with
  | some v => (v, cache)
  | none =>
    let iosVersion : Option String :=
      match execResult with
      | none => some "9.3.0"
      | some data =>
        match scanSimDevices data.runtimes udid data.devices with
        | Except.error _ => some "9.3.0"
        | Except.ok v => v
    (iosVersion, (udid, iosVersion) :: cache)

/-! ## Discovery (IOSAdapter.getTargets) -/

/-- A raw device record from the discovery endpoint: the fields the
adapter reads (`deviceId`, optional `deviceOSVersion`, `url`), plus the
`version` field the loop assigns onto the record (initially absent).
JS field absence and the falsy empty string are both modelled. -/
structure RawDevice where
  deviceId : String
  deviceOSVersion : Option String
  url : String
  version : Option String := none
deriving DecidableEq

/-- The per-device `Adapter` record created by discovery: its id, the
proxy url passed to the constructor, and the port parsed from the
device url (parseInt may yield NaN, which the source never checks). -/
structure AdapterRec where
  id : String
  url : String
  port : Option Int
deriving DecidableEq

/-- The version-assignment branch of the `getTargets` loop: a simulator
record gets the (cached) simulator version for the configured udid; a
physical record gets its truthy `deviceOSVersion`, else the documented
fallback '9.3.0' (JS truthiness: an absent field and the empty string
both fall through). -/
def resolveDeviceVersion (simUdid : String) (execResult : Option SimctlData)
    (cache : List (String × Option String)) (d : RawDevice) :
    Option String × List (String × Option String) :=
  if d.deviceId == "SIMULATOR" then getSimulatorVersion cache simUdid execResult
  else
    match d.deviceOSVersion with
    | some v => if v.isEmpty then (some "9.3.0", cache) else (some v, cache)
    | none => (some "9.3.0", cache)

/-- The adapter id `${this._id}_${d.deviceId}` for a device record. -/
def adapterKey (selfId : String) (d : RawDevice) : String :=
  selfId ++ "_" ++ d.deviceId

/-- The adapter-creation branch of the `getTargets` loop: when the
adapter id is untracked and the device url splits on ':' into more than
one part, create an `Adapter` on the parsed port and register it;
otherwise leave the map unchanged.  (`adapter.start()` and the
socketClosed subscription are I/O on the created adapter and do not
affect the map.) -/
def stepAdapters (selfId proxyUrl : String) (adapters : List (String × AdapterRec))
    (d : RawDevice) : List (String × AdapterRec) :=
  if (List.lookup (adapterKey selfId d) adapters).isSome then adapters
  else
    if (splitString ':' d.url).length > 1 then
      (adapterKey selfId d,
        { id := adapterKey selfId d, url := proxyUrl,
          port := parseIntDec ((splitString ':' d.url).getD 1 "") }) :: adapters
    else adapters

/-- The mutable state of an `IOSAdapter` instance: its collection id and
proxy url (fixed at construction), the configured simulator udid, the
`_adapters` map of the collection, the `_simulatorVersionMap` cache, the
`_protocolMap`, and the routing table consulted by
`AdapterCollection.connectTo`. -/
structure IOSAdapterState where
  selfId : String
  proxyUrl : String
  simUdid : String
  adapters : List (String × AdapterRec)
  simCache : List (String × Option String)
  protocolMap : List (Nat × DialectTag)
  routes : List (String × Target)
deriving DecidableEq

/-- One iteration of the `getTargets` loop on device `d`: assign
`d.version`, then run the adapter-creation branch; returns the updated
state and the (version-assigned) record pushed onto `devices`. -/
def processDevice (execResult : Option SimctlData) (st : IOSAdapterState)
    (d : RawDevice) : IOSAdapterState × RawDevice :=
  let vc := resolveDeviceVersion st.simUdid execResult st.simCache d
  let d2 : RawDevice := { d with version := vc.1 }
  ({ st with
      adapters := stepAdapters st.selfId st.proxyUrl st.adapters d2,
      simCache := vc.2 }, d2)

/-- `IOSAdapter.getTargets` over an already-parsed discovery response:
fold the loop body over the raw device records, collecting the pushed
records in order (the state carries `_adapters` and the simulator
cache).  A failed discovery request is the empty record list. -/
def getTargets (execResult : Option SimctlData) (st : IOSAdapterState) :
    List RawDevice → IOSAdapterState × List RawDevice
  | [] => (st, [])
  | d :: rest =>
    let p := processDevice execResult st d
    let r := getTargets execResult p.1 rest
    (r.1, p.2 :: r.2)

/-- Modelled from the spec: `super.getTargets(devices)`
(`AdapterCollection.getTargets`, whose source is not included under
src/) normalizes each raw record passed to it into a target of the
merged target list it returns, so each pushed device record appears in
the merged list. -/
def mergedTargets (devices : List RawDevice) : List RawDevice :=
  devices

/-! ## Connection (IOSAdapter.connectTo) -/

/-- Modelled from the spec: `super.connectTo(url, wsFrom)`
(`AdapterCollection.connectTo`, whose source is not included under
src/) resolves a Target via the routing table, yielding nothing when no
entry matches the url. -/
def superConnectTo (st : IOSAdapterState) (url : String) : Option Target :=
  List.lookup url st.routes

/-- `IOSAdapter.connectTo(url, wsFrom)`: when the superclass lookup
finds no target, throw `Target not found for <url>`; otherwise, if the
target has no cached protocol yet, resolve the dialect from the
target's metadata version via `getProtocolFor` and cache the binding in
`_protocolMap`; a target with a cached binding is returned with the
state untouched. -/
def connectTo (st : IOSAdapterState) (url : String) :
    Except String (Target × IOSAdapterState) :=
  match superConnectTo st url with
  | none => Except.error ("Target not found for " ++ url)
  | some target =>
    if (List.lookup target.id st.protocolMap).isSome then Except.ok (target, st)
    else
      Except.ok (target,
        { st with protocolMap := (target.id, getProtocolFor target.version target) :: st.protocolMap })

/-! ## Association-list lemmas -/

/-- Unfolding equation for `List.lookup` on a cons cell. -/
theorem lookup_cons_eqn {α β : Type} [BEq α] [LawfulBEq α] (k k2 : α) (v : β)
    (l : List (α × β)) :
    List.lookup k ((k2, v) :: l) = if k == k2 then some v else List.lookup k l := by
  by_cases h : k = k2
  · subst h; simp [List.lookup]
  · have hb : (k == k2) = false := beq_eq_false_iff_ne.mpr h
    simp [List.lookup, hb]

/-- A key is absent from an association list iff it is not among the
mapped first components. -/
theorem lookup_none_iff {α β : Type} [BEq α] [LawfulBEq α] (k : α) (l : List (α × β)) :
    List.lookup k l = none ↔ k ∉ l.map Prod.fst := by
  induction l with
  | nil => simp
  | cons p rest ih =>
    cases p with
    | mk k2 a =>
      by_cases h : k = k2
      · subst h; simp [List.lookup]
      · have hb : (k == k2) = false := beq_eq_false_iff_ne.mpr h
        rw [lookup_cons_eqn]
        simp [hb, h, ih]

/-! ## The `_adapters` map across a discovery pass -/

/-- The evolution of the `_adapters` map alone over a device list (the
collection id and proxy url are fixed for the life of the adapter). -/
def runAdapters (selfId proxyUrl : String) (adapters : List (String × AdapterRec)) :
    List RawDevice → List (String × AdapterRec)
  | [] => adapters
  | d :: rest => runAdapters selfId proxyUrl (stepAdapters selfId proxyUrl adapters d) rest

/-- The adapter-creation branch ignores the `version` field assigned
just before it (it reads only `deviceId` and `url`). -/
theorem stepAdapters_version_irrelevant (s p : String) (a : List (String × AdapterRec))
    (d : RawDevice) (v : Option String) :
    stepAdapters s p a { d with version := v } = stepAdapters s p a d := rfl

/-- A full `getTargets` pass evolves `_adapters` exactly by
`runAdapters` with the state's fixed collection id and proxy url. -/
theorem getTargets_fst_adapters (e : Option SimctlData) (st : IOSAdapterState)
    (devs : List RawDevice) :
    ((getTargets e st devs).1).adapters = runAdapters st.selfId st.proxyUrl st.adapters devs := by
  induction devs generalizing st with
  | nil => rfl
  | cons d rest ih =>
    show ((getTargets e (processDevice e st d).1 rest).1).adapters = _
    rw [ih]
    rfl

/-- A `getTargets` pass never changes the collection id. -/
theorem getTargets_fst_selfId (e : Option SimctlData) (st : IOSAdapterState)
    (devs : List RawDevice) :
    ((getTargets e st devs).1).selfId = st.selfId := by
  induction devs generalizing st with
  | nil => rfl
  | cons d rest ih => exact ih (processDevice e st d).1

/-- A `getTargets` pass never changes the proxy url. -/
theorem getTargets_fst_proxyUrl (e : Option SimctlData) (st : IOSAdapterState)
    (devs : List RawDevice) :
    ((getTargets e st devs).1).proxyUrl = st.proxyUrl := by
  induction devs generalizing st with
  | nil => rfl
  | cons d rest ih => exact ih (processDevice e st d).1

/-- Every tracked adapter binding survives one loop iteration
unchanged (insertion happens only at an absent key). -/
theorem stepAdapters_preserves (s p : String) (a : List (String × AdapterRec))
    (d : RawDevice) (k : String) (v : AdapterRec) (h : List.lookup k a = some v) :
    List.lookup k (stepAdapters s p a d) = some v := by
  unfold stepAdapters
  split
  · exact h
  · rename_i hmiss
    split
    · have hne : k ≠ adapterKey s d := by
        intro heq
        apply hmiss
        rw [← heq, h]
        rfl
      rw [lookup_cons_eqn]
      have hb : (k == adapterKey s d) = false := beq_eq_false_iff_ne.mpr hne
      simp [hb, h]
    · exact h

/-- Every tracked adapter binding survives a full discovery pass
unchanged. -/
theorem runAdapters_preserves (s p : String) (devs : List RawDevice)
    (a : List (String × AdapterRec)) (k : String) (v : AdapterRec)
    (h : List.lookup k a = some v) :
    List.lookup k (runAdapters s p a devs) = some v := by
  induction devs generalizing a with
  | nil => exact h
  | cons d rest ih => exact ih _ (stepAdapters_preserves s p a d k v h)

/-- After the loop iteration for a device whose url carries a port
part, that device's adapter key is tracked. -/
theorem stepAdapters_key_isSome (s p : String) (a : List (String × AdapterRec))
    (d : RawDevice) (hport : (splitString ':' d.url).length > 1) :
    (List.lookup (adapterKey s d) (stepAdapters s p a d)).isSome := by
  unfold stepAdapters
  split
  · assumption
  · rw [lookup_cons_eqn]
    simp

/-- After a full discovery pass, every listed device whose url carries
a port part has its adapter key tracked. -/
theorem runAdapters_mem_key (s p : String) (devs : List RawDevice)
    (a : List (String × AdapterRec)) (d : RawDevice) (hmem : d ∈ devs)
    (hport : (splitString ':' d.url).length > 1) :
    (List.lookup (adapterKey s d) (runAdapters s p a devs)).isSome := by
  induction devs generalizing a with
  | nil => cases hmem
  | cons d0 rest ih =>
    rcases List.mem_cons.mp hmem with rfl | hmem2
    · have h0 := stepAdapters_key_isSome s p a d hport
      obtain ⟨v, hv⟩ := Option.isSome_iff_exists.mp h0
      have hrun := runAdapters_preserves s p rest _ _ v hv
      show (List.lookup (adapterKey s d) (runAdapters s p (stepAdapters s p a d) rest)).isSome
      rw [hrun]
      rfl
    · exact ih _ hmem2

/-- The loop iteration for a device whose adapter key is already
tracked leaves the map untouched. -/
theorem stepAdapters_id_of_tracked (s p : String) (a : List (String × AdapterRec))
    (d : RawDevice) (h : (List.lookup (adapterKey s d) a).isSome) :
    stepAdapters s p a d = a := by
  unfold stepAdapters
  rw [if_pos h]

/-- The loop iteration for a device whose url has no port part leaves
the map untouched. -/
theorem stepAdapters_id_of_noport (s p : String) (a : List (String × AdapterRec))
    (d : RawDevice) (h : ¬ ((splitString ':' d.url).length > 1)) :
    stepAdapters s p a d = a := by
  unfold stepAdapters
  split <;> rfl

/-- A discovery pass over devices that are each already tracked (or
portless) is the identity on the adapter map. -/
theorem runAdapters_id (s p : String) (devs : List RawDevice)
    (a : List (String × AdapterRec))
    (h : ∀ d ∈ devs, (splitString ':' d.url).length > 1 →
        (List.lookup (adapterKey s d) a).isSome) :
    runAdapters s p a devs = a := by
  induction devs with
  | nil => rfl
  | cons d rest ih =>
    have hstep : stepAdapters s p a d = a := by
      by_cases hp : (splitString ':' d.url).length > 1
      · exact stepAdapters_id_of_tracked s p a d (h d (List.mem_cons_self d rest) hp)
      · exact stepAdapters_id_of_noport s p a d hp
    show runAdapters s p (stepAdapters s p a d) rest = a
    rw [hstep]
    exact ih fun d2 hd2 hp2 => h d2 (List.mem_cons_of_mem d hd2) hp2

/-- Running the adapter-map evolution twice over the same device list
is the same as running it once. -/
theorem runAdapters_idem (s p : String) (a : List (String × AdapterRec))
    (devs : List RawDevice) :
    runAdapters s p (runAdapters s p a devs) devs = runAdapters s p a devs :=
  runAdapters_id s p devs _ fun d hd hp => runAdapters_mem_key s p devs a d hd hp

/-- One loop iteration preserves distinctness of adapter keys. -/
theorem stepAdapters_nodup (s p : String) (a : List (String × AdapterRec)) (d : RawDevice)
    (h : (a.map Prod.fst).Nodup) : ((stepAdapters s p a d).map Prod.fst).Nodup := by
  unfold stepAdapters
  split
  · exact h
  · rename_i hmiss
    split
    · have hnot : adapterKey s d ∉ a.map Prod.fst := by
        rw [← lookup_none_iff]
        cases hc : List.lookup (adapterKey s d) a with
        | none => rfl
        | some v =>
          exfalso
          apply hmiss
          rw [hc]
          rfl
      simp [List.nodup_cons, hnot, h]
    · exact h

/-- A full discovery pass preserves distinctness of adapter keys. -/
theorem runAdapters_nodup (s p : String) (devs : List RawDevice)
    (a : List (String × AdapterRec)) (h : (a.map Prod.fst).Nodup) :
    ((runAdapters s p a devs).map Prod.fst).Nodup := by
  induction devs generalizing a with
  | nil => exact h
  | cons d rest ih => exact ih _ (stepAdapters_nodup s p a d h)

/-- Entries at a key that was absent before the pass were written by
the loop, so they carry that key as adapter id and the proxy url. -/
theorem stepAdapters_fresh_entry (s p : String) (a : List (String × AdapterRec))
    (d : RawDevice) (key : String)
    (hinv : ∀ v, List.lookup key a = some v → v.id = key ∧ v.url = p) :
    ∀ v, List.lookup key (stepAdapters s p a d) = some v → v.id = key ∧ v.url = p := by
  intro v hv
  unfold stepAdapters at hv
  split at hv
  · exact hinv v hv
  · split at hv
    · rw [lookup_cons_eqn] at hv
      by_cases heq : key = adapterKey s d
      · rw [if_pos (beq_iff_eq.mpr heq)] at hv
        cases hv
        exact ⟨heq.symm, rfl⟩
      · have hb : (key == adapterKey s d) = false := beq_eq_false_iff_ne.mpr heq
        rw [hb] at hv
        simp only [Bool.false_eq_true, if_false] at hv
        exact hinv v hv
    · exact hinv v hv

/-- Run-level version of `stepAdapters_fresh_entry`. -/
theorem runAdapters_fresh_entry (s p : String) (devs : List RawDevice)
    (a : List (String × AdapterRec)) (key : String)
    (hinv : ∀ v, List.lookup key a = some v → v.id = key ∧ v.url = p) :
    ∀ v, List.lookup key (runAdapters s p a devs) = some v → v.id = key ∧ v.url = p := by
  induction devs generalizing a with
  | nil => exact hinv
  | cons d rest ih => exact ih _ (stepAdapters_fresh_entry s p a d key hinv)

/-- Every listed device record is pushed (with its version assigned)
onto the device list a discovery pass returns. -/
theorem getTargets_mem_out (e : Option SimctlData) (st : IOSAdapterState)
    (devs : List RawDevice) (d : RawDevice) (hmem : d ∈ devs) :
    ∃ d2 ∈ (getTargets e st devs).2, d2.deviceId = d.deviceId ∧ d2.url = d.url
      ∧ d2.deviceOSVersion = d.deviceOSVersion := by
  induction devs generalizing st with
  | nil => cases hmem
  | cons d0 rest ih =>
    rcases List.mem_cons.mp hmem with rfl | hmem2
    · refine ⟨(processDevice e st d).2, ?_, rfl, rfl, rfl⟩
      show (processDevice e st d).2 ∈
        (processDevice e st d).2 :: (getTargets e (processDevice e st d).1 rest).2
      exact List.mem_cons_self _ _
    · obtain ⟨d2, hd2, hprops⟩ := ih (processDevice e st d0).1 hmem2
      exact ⟨d2, List.mem_cons_of_mem _ hd2, hprops⟩

/-! ## Claim theorems: discovery and connection bookkeeping -/

/-- C7: a second `getTargets` pass over the same device list leaves the
`_adapters` map exactly as the first pass left it; every adapter
binding tracked before a pass is unchanged by it; and distinctness of
adapter keys (at most one Adapter per device id) is preserved by every
pass. -/
theorem c7_get_targets_idempotent (e : Option SimctlData) (st : IOSAdapterState)
    (devices : List RawDevice) :
    ((getTargets e (getTargets e st devices).1 devices).1).adapters
        = ((getTargets e st devices).1).adapters
  ∧ (∀ (k : String) (a : AdapterRec), List.lookup k st.adapters = some a →
        List.lookup k ((getTargets e st devices).1).adapters = some a)
  ∧ ((st.adapters.map Prod.fst).Nodup →
        (((getTargets e st devices).1).adapters.map Prod.fst).Nodup) := by
  refine ⟨?_, ?_, ?_⟩
  · rw [getTargets_fst_adapters e (getTargets e st devices).1 devices,
      getTargets_fst_selfId, getTargets_fst_proxyUrl,
      getTargets_fst_adapters e st devices]
    exact runAdapters_idem st.selfId st.proxyUrl st.adapters devices
  · intro k a h
    rw [getTargets_fst_adapters]
    exact runAdapters_preserves st.selfId st.proxyUrl devices st.adapters k a h
  · intro h
    rw [getTargets_fst_adapters]
    exact runAdapters_nodup st.selfId st.proxyUrl devices st.adapters h

/-- Witness for C7: key distinctness after a concrete discovery pass. -/
theorem c7_get_targets_idempotent_witness :
    ((((getTargets none ⟨"c", "proxy", "sim", [], [], [], []⟩
        [⟨"dev1", none, "localhost:9222", none⟩]).1).adapters.map Prod.fst)).Nodup :=
  (c7_get_targets_idempotent none ⟨"c", "proxy", "sim", [], [], [], []⟩
    [⟨"dev1", none, "localhost:9222", none⟩]).2.2 (by simp)

/-- C8: a raw device record whose adapter id is untracked and whose url
carries a port part gets a fresh Adapter created and registered under
its adapter id (bearing that id and the proxy url) by a `getTargets`
pass, and the record appears in the merged target list the pass
returns. -/
theorem c8_get_targets_registers (e : Option SimctlData) (st : IOSAdapterState)
    (devices : List RawDevice) (d : RawDevice)
    (hmem : d ∈ devices)
    (hport : (splitString ':' d.url).length > 1)
    (hnew : List.lookup (adapterKey st.selfId d) st.adapters = none) :
    (∃ a, List.lookup (adapterKey st.selfId d) ((getTargets e st devices).1).adapters = some a
        ∧ a.id = adapterKey st.selfId d ∧ a.url = st.proxyUrl)
  ∧ ∃ d2 ∈ mergedTargets (getTargets e st devices).2,
        d2.deviceId = d.deviceId ∧ d2.url = d.url := by
  constructor
  · rw [getTargets_fst_adapters]
    have hsome := runAdapters_mem_key st.selfId st.proxyUrl devices st.adapters d hmem hport
    obtain ⟨a, ha⟩ := Option.isSome_iff_exists.mp hsome
    have hfresh := runAdapters_fresh_entry st.selfId st.proxyUrl devices st.adapters
        (adapterKey st.selfId d)
        (fun v hv => by rw [hnew] at hv; exact Option.noConfusion hv) a ha
    exact ⟨a, ha, hfresh.1, hfresh.2⟩
  · obtain ⟨d2, h1, h2, h3, _⟩ := getTargets_mem_out e st devices d hmem
    exact ⟨d2, h1, h2, h3⟩

/-- Witness for C8 at a concrete fresh device. -/
theorem c8_get_targets_registers_witness :
    (∃ a, List.lookup (adapterKey "c" ⟨"dev1", none, "localhost:9222", none⟩)
          (((getTargets none ⟨"c", "proxy", "sim", [], [], [], []⟩
              [⟨"dev1", none, "localhost:9222", none⟩]).1).adapters) = some a
        ∧ a.id = adapterKey "c" ⟨"dev1", none, "localhost:9222", none⟩ ∧ a.url = "proxy")
  ∧ ∃ d2 ∈ mergedTargets (getTargets none ⟨"c", "proxy", "sim", [], [], [], []⟩
          [⟨"dev1", none, "localhost:9222", none⟩]).2,
        d2.deviceId = "dev1" ∧ d2.url = "localhost:9222" :=
  c8_get_targets_registers none ⟨"c", "proxy", "sim", [], [], [], []⟩
    [⟨"dev1", none, "localhost:9222", none⟩] ⟨"dev1", none, "localhost:9222", none⟩
    (List.mem_singleton.mpr rfl) (by decide) rfl

/-- C9: the first `connectTo` that reaches a routed target with no
cached protocol resolves the dialect from the target's version and
device kind via `getProtocolFor`, caches the binding in `_protocolMap`,
and returns the target; every later `connectTo` to the same target
finds the cached binding and returns with the state untouched (no new
protocol is constructed). -/
theorem c9_connect_to_caches_protocol (st : IOSAdapterState) (url : String) (t : Target)
    (hroute : List.lookup url st.routes = some t) :
    (List.lookup t.id st.protocolMap = none →
        connectTo st url = Except.ok (t,
          { st with protocolMap := (t.id, getProtocolFor t.version t) :: st.protocolMap })
      ∧ List.lookup t.id ((t.id, getProtocolFor t.version t) :: st.protocolMap)
          = some (getProtocolFor t.version t))
  ∧ ∀ p, List.lookup t.id st.protocolMap = some p →
      connectTo st url = Except.ok (t, st) := by
  constructor
  · intro hmiss
    constructor
    · unfold connectTo superConnectTo
      rw [hroute]
      simp [hmiss]
    · rw [lookup_cons_eqn]
      simp
  · intro p hp
    unfold connectTo superConnectTo
    rw [hroute]
    simp [hp]

/-- Witness for C9: first connection to a concrete routed target caches
its dialect. -/
theorem c9_connect_to_caches_protocol_witness :
    connectTo ⟨"c", "proxy", "sim", [], [], [], [("u", ⟨5, "13.4", "dev", false⟩)]⟩ "u"
      = Except.ok (⟨5, "13.4", "dev", false⟩,
          ⟨"c", "proxy", "sim", [], [],
            [(5, getProtocolFor "13.4" ⟨5, "13.4", "dev", false⟩)],
            [("u", ⟨5, "13.4", "dev", false⟩)]⟩) :=
  ((c9_connect_to_caches_protocol
      ⟨"c", "proxy", "sim", [], [], [], [("u", ⟨5, "13.4", "dev", false⟩)]⟩
      "u" ⟨5, "13.4", "dev", false⟩ rfl).1 rfl).1

/-- C10: the fallback version string is exactly '9.3.0': it is assigned
when a physical device record has no `deviceOSVersion`, and when the
simulator shell-out fails on an uncached udid; and '9.3.0' resolves to
the v9 default dialect for every target. -/
theorem c10_fallback_version (simUdid : String) (e : Option SimctlData)
    (cache : List (String × Option String)) (d : RawDevice)
    (udid : String) (cache2 : List (String × Option String)) (t : Target) :
    (d.deviceId ≠ "SIMULATOR" → d.deviceOSVersion = none →
        (resolveDeviceVersion simUdid e cache d).1 = some "9.3.0")
  ∧ (List.lookup udid cache2 = none →
        (getSimulatorVersion cache2 udid none).1 = some "9.3.0")
  ∧ getProtocolFor "9.3.0" t = DialectTag.v9 := by
  refine ⟨?_, ?_, ?_⟩
  · intro hne hnone
    have hb : (d.deviceId == "SIMULATOR") = false := beq_eq_false_iff_ne.mpr hne
    unfold resolveDeviceVersion
    rw [hb, hnone]
    rfl
  · intro hmiss
    unfold getSimulatorVersion
    rw [hmiss]
  · rw [show getProtocolFor "9.3.0" t = resolveParts (some 9) (some 3) t.deviceId from rfl]
    simp [resolveParts, numLe, numGt, numGe, numEq]

/-- Witness for C10 at a concrete physical device, an uncached udid and
a concrete target. -/
theorem c10_fallback_version_witness :
    (resolveDeviceVersion "sim" none [] ⟨"dev1", none, "localhost:9222", none⟩).1 = some "9.3.0"
  ∧ (getSimulatorVersion [] "udid1" none).1 = some "9.3.0"
  ∧ getProtocolFor "9.3.0" ⟨0, "9.3.0", "dev1", false⟩ = DialectTag.v9 :=
  ⟨(c10_fallback_version "sim" none [] ⟨"dev1", none, "localhost:9222", none⟩
      "udid1" [] ⟨0, "9.3.0", "dev1", false⟩).1 (by decide) rfl,
   (c10_fallback_version "sim" none [] ⟨"dev1", none, "localhost:9222", none⟩
      "udid1" [] ⟨0, "9.3.0", "dev1", false⟩).2.1 rfl,
   (c10_fallback_version "sim" none [] ⟨"dev1", none, "localhost:9222", none⟩
      "udid1" [] ⟨0, "9.3.0", "dev1", false⟩).2.2⟩

end RemoteDebugAdapter
